/-
Verification of the ACM Skill Prep backend (backend/app.py): a shallow
embedding of its data model, read-through cache, problem query service,
admin mutation service and contest timer state machine, with theorems
checking the documented behaviour.

Modelling conventions:
- wall-clock instants and durations are integers counting seconds
  (`timedelta(minutes=m)` becomes `60 * m`); `NOW()` is an explicit
  `now : Int` argument threaded through each handler;
- the relational store and the process cache are packed into `AppState`;
  every HTTP handler becomes a function `... → AppState → result × AppState`;
- the admin secret (env `ADMIN_PASSWORD`) and the request token (header
  `X-Admin-Token`, absent = `none`) are explicit arguments;
- database connection failures and the HTTP layer are out of scope: the
  handlers model the body that runs once a connection is obtained.
-/
import Mathlib

set_option linter.unusedVariables false

/-- Contest status values stored in `contest_state.status`. -/
inductive ContestStatus
  | pending
  | running
  | ended
deriving DecidableEq

/-- The singleton `contest_state` row (id = 1). -/
structure ContestRow where
  status : ContestStatus
  start_time : Option Int
  end_time : Option Int
  total_duration_minutes : Int
  is_visible : Bool
  updated_at : Int
deriving DecidableEq

/-- A row of the `problems` table. -/
structure Problem where
  id : String
  title : String
  origin : Option String
  time_limit : Option Int
  memory_limit : Option Int
  statement : String
  input : String
  output : String
  constraints : String
  note : Option String
  vj_link : String
deriving DecidableEq

/-- A row of the `samples` table; `id` is the serial primary key used by
`ORDER BY s.id`. -/
structure Sample where
  id : Nat
  problem_id : String
  input : String
  output : String
deriving DecidableEq

/-- The relational store: the two problem relations plus the singleton
contest row (`none` = no row), and the next serial id for samples. -/
structure DB where
  problems : List Problem
  samples : List Sample
  next_sample_id : Nat
  contest : Option ContestRow
deriving DecidableEq

/-- Summary fields returned by `GET /api/problems`. -/
structure ProblemSummary where
  id : String
  title : String
  origin : Option String
  time_limit : Option Int
  memory_limit : Option Int
deriving DecidableEq

/-- Full problem detail returned by `GET /api/problems/<id>`, after the
camelCase renames performed by the handler. -/
structure ProblemDetail where
  id : String
  title : String
  origin : Option String
  statement : String
  input : String
  output : String
  constraints : String
  note : Option String
  samples : List (String × String)
  timeLimit : Option Int
  memoryLimit : Option Int
  vjLink : String
deriving DecidableEq

/-- Values stored in the process-wide cache dict (`cache[key]`). -/
inductive CacheValue
  | allProblems (ps : List ProblemSummary)
  | problemDetail (d : ProblemDetail)
deriving DecidableEq

/-- The `cache` / `cache_timestamp` pair of dicts, as one association list
from key to (payload, insertion time). -/
abbrev Cache := List (String × CacheValue × Int)

/-- Whole in-memory application state: database plus cache. -/
structure AppState where
  db : DB
  cache : Cache
deriving DecidableEq

/-- Error taxonomy of the handlers (401 / 404 / 400). -/
inductive ApiError
  | unauthorized
  | notFound
  | invalidState
deriving DecidableEq

/-- Cache read: hit iff the key is present and strictly younger than the
3600 second TTL (`time.time() - cache_timestamp.get(key, 0) < 3600`). -/
def cacheGet (c : Cache) (k : String) (now : Int) : Option CacheValue :=
  match c.lookup k with
  | some (v, t) => if now - t < 3600 then some v else none
  | none => none

/-- Cache write: `cache[key] = v; cache_timestamp[key] = time.time()`. -/
def cachePut (c : Cache) (k : String) (v : CacheValue) (now : Int) : Cache :=
  (k, v, now) :: c.filter (fun e => e.1 ≠ k)

/-- Insertion into a list kept sorted by `le`. -/
def insertSorted (le : α → α → Bool) (a : α) : List α → List α
  | [] => [a]
  | b :: l => if le a b then a :: b :: l else b :: insertSorted le a l

/-- Insertion sort, modelling SQL `ORDER BY`. -/
def sortByKey (le : α → α → Bool) : List α → List α
  | [] => []
  | a :: l => insertSorted le a (sortByKey le l)

/-- Projection to the columns selected by `GET /api/problems`. -/
def problemSummary (p : Problem) : ProblemSummary :=
  { id := p.id, title := p.title, origin := p.origin,
    time_limit := p.time_limit, memory_limit := p.memory_limit }

/-- `GET /api/problems`: serve from cache when fresh, else query
`SELECT id, title, origin, time_limit, memory_limit FROM problems
ORDER BY id` and cache the result under key `all_problems`. -/
def get_all_problems (now : Int) (s : AppState) :
    List ProblemSummary × AppState :=
  match cacheGet s.cache "all_problems" now with
  | some (CacheValue.allProblems ps) => (ps, s)
  | _ =>
    let ps := (sortByKey (fun p q => decide (p.id ≤ q.id)) s.db.problems).map
      problemSummary
    (ps, { s with
      cache := cachePut s.cache "all_problems" (CacheValue.allProblems ps) now })

/-- The aggregated, ordered sample array of one problem: the LEFT JOIN with
`json_agg(... ORDER BY s.id) FILTER (WHERE s.id IS NOT NULL)` coalesced to
the empty array. -/
def problemSamples (samples : List Sample) (pid : String) :
    List (String × String) :=
  (sortByKey (fun a b => decide (a.id ≤ b.id))
    (samples.filter (fun t => t.problem_id == pid))).map
    (fun t => (t.input, t.output))

/-- One joined result row of `GET /api/problems/<id>`, after the camelCase
renames (`time_limit → timeLimit`, `memory_limit → memoryLimit`,
`vj_link → vjLink`). -/
def problemDetailOf (p : Problem) (samples : List Sample) : ProblemDetail :=
  { id := p.id, title := p.title, origin := p.origin,
    statement := p.statement, input := p.input, output := p.output,
    constraints := p.constraints, note := p.note,
    samples := problemSamples samples p.id,
    timeLimit := p.time_limit, memoryLimit := p.memory_limit,
    vjLink := p.vj_link }

/-- `GET /api/problems/<problem_id>`: serve from cache under key
`problem_<id>` when fresh; on miss run the single JOIN query, 404 when no
problem row matches, else build the detail and cache it. -/
def get_problem (pid : String) (now : Int) (s : AppState) :
    Except ApiError ProblemDetail × AppState :=
  let key := "problem_" ++ pid
  match cacheGet s.cache key now with
  | some (CacheValue.problemDetail d) => (Except.ok d, s)
  | _ =>
    match s.db.problems.find? (fun p => p.id == pid) with
    | none => (Except.error ApiError.notFound, s)
    | some p =>
      let d := problemDetailOf p s.db.samples
      let c := cachePut s.cache key (CacheValue.problemDetail d) now
      (Except.ok d, { s with cache := c })

/-- `check_admin_token`: the `X-Admin-Token` header (absent = `none`)
compared for exact equality with the configured admin secret. -/
def check_admin_token (secret : String) (token : Option String) : Bool :=
  token == some secret

/-- `POST /api/admin/login`: token validation only, no datastore access. -/
def admin_login (secret : String) (token : Option String) (s : AppState) :
    Except ApiError Unit × AppState :=
  if check_admin_token secret token then (Except.ok (), s)
  else (Except.error ApiError.unauthorized, s)

/-- Request body of the problem mutation endpoints, after JSON parsing;
samples are (input, output) pairs in request order. -/
structure ProblemData where
  id : String
  title : String
  origin : Option String
  timeLimit : Option Int
  memoryLimit : Option Int
  statement : String
  input : String
  output : String
  constraints : String
  note : Option String
  vjLink : String
  samples : List (String × String)
deriving DecidableEq

/-- The problem row built from a request body. -/
def problemOfData (d : ProblemData) : Problem :=
  { id := d.id, title := d.title, origin := d.origin,
    time_limit := d.timeLimit, memory_limit := d.memoryLimit,
    statement := d.statement, input := d.input, output := d.output,
    constraints := d.constraints, note := d.note, vj_link := d.vjLink }

/-- `INSERT ... ON CONFLICT (id) DO UPDATE` on `problems`: replace the row
with matching id when one exists, else append a new row. -/
def upsertProblem (ps : List Problem) (d : ProblemData) : List Problem :=
  if ps.any (fun p => p.id == d.id) then
    ps.map (fun p => if p.id == d.id then problemOfData d else p)
  else ps ++ [problemOfData d]

/-- Bulk `INSERT INTO samples`: appends the request samples in order,
assigning consecutive serial ids; returns the new table and next id. -/
def insertSamples (samples : List Sample) (nextId : Nat) (pid : String)
    (new : List (String × String)) : List Sample × Nat :=
  (samples ++ new.enum.map (fun e =>
      { id := nextId + e.1, problem_id := pid,
        input := e.2.1, output := e.2.2 }),
    nextId + new.length)

/-- `POST /api/admin/problems`: token check, upsert the problem row, delete
its samples, bulk-insert the request samples, then clear the whole cache. -/
def admin_add_problem (secret : String) (token : Option String)
    (d : ProblemData) (now : Int) (s : AppState) :
    Except ApiError Unit × AppState :=
  if check_admin_token secret token then
    let problems := upsertProblem s.db.problems d
    let kept := s.db.samples.filter (fun t => t.problem_id != d.id)
    let ins := insertSamples kept s.db.next_sample_id d.id d.samples
    let db2 : DB :=
      { problems := problems, samples := ins.1,
        next_sample_id := ins.2, contest := s.db.contest }
    (Except.ok (), { db := db2, cache := [] })
  else (Except.error ApiError.unauthorized, s)

/-- `PUT /api/admin/problems/<id>`: token check, `UPDATE problems ... WHERE
id = <id>` (no row created when absent), replace that id's samples, clear
the whole cache. -/
def admin_update_problem (secret : String) (token : Option String)
    (pid : String) (d : ProblemData) (now : Int) (s : AppState) :
    Except ApiError Unit × AppState :=
  if check_admin_token secret token then
    let problems := s.db.problems.map (fun p =>
      if p.id == pid then
        { p with
          title := d.title, origin := d.origin,
          time_limit := d.timeLimit, memory_limit := d.memoryLimit,
          statement := d.statement, input := d.input, output := d.output,
          constraints := d.constraints, note := d.note, vj_link := d.vjLink }
      else p)
    let kept := s.db.samples.filter (fun t => t.problem_id != pid)
    let ins := insertSamples kept s.db.next_sample_id pid d.samples
    let db2 : DB :=
      { problems := problems, samples := ins.1,
        next_sample_id := ins.2, contest := s.db.contest }
    (Except.ok (), { db := db2, cache := [] })
  else (Except.error ApiError.unauthorized, s)

/-- `DELETE /api/admin/problems/<id>`: token check, delete dependent
samples then the problem row (zero rows affected is not an error), clear
the whole cache. -/
def admin_delete_problem (secret : String) (token : Option String)
    (pid : String) (s : AppState) : Except ApiError Unit × AppState :=
  if check_admin_token secret token then
    let problems := s.db.problems.filter (fun p => p.id != pid)
    let kept := s.db.samples.filter (fun t => t.problem_id != pid)
    let db2 : DB :=
      { problems := problems, samples := kept,
        next_sample_id := s.db.next_sample_id, contest := s.db.contest }
    (Except.ok (), { db := db2, cache := [] })
  else (Except.error ApiError.unauthorized, s)

/-- Response body of `GET /api/contest/status`. -/
structure ContestStatusResponse where
  status : ContestStatus
  remaining_time : Int
  is_visible : Bool
  total_duration_minutes : Option Int
deriving DecidableEq

/-- `GET /api/contest/status`: read-only. No row reports pending with zero
remaining time; otherwise remaining time is `max(0, start_time - now)`
while pending with a start time, `max(0, end_time - now)` while running
with an end time, and 0 in every other case. -/
def get_contest_status (now : Int) (s : AppState) :
    ContestStatusResponse × AppState :=
  match s.db.contest with
  | none =>
    ({ status := ContestStatus.pending, remaining_time := 0,
       is_visible := false, total_duration_minutes := none }, s)
  | some row =>
    let remaining_time : Int :=
      match row.status, row.start_time, row.end_time with
      | ContestStatus.pending, some st, _ => max 0 (st - now)
      | ContestStatus.running, _, some et => max 0 (et - now)
      | _, _, _ => 0
    ({ status := row.status, remaining_time := remaining_time,
       is_visible := row.is_visible,
       total_duration_minutes := some row.total_duration_minutes }, s)

/-- Response body of `GET /api/contest/last-update`; `status` is the
string `ok` or `no_contest` of the JSON response. -/
structure LastUpdateResponse where
  last_update : Int
  status : String
deriving DecidableEq

/-- `GET /api/contest/last-update`: reads the row; applies at most one
lazy transition (`pending → running` when the start time has passed, else
`running → ended` when the end time has passed), persisting it with
`updated_at = NOW()`; returns the (possibly new) update timestamp. -/
def get_last_update (now : Int) (s : AppState) :
    LastUpdateResponse × AppState :=
  match s.db.contest with
  | none => ({ last_update := 0, status := "no_contest" }, s)
  | some row =>
    let new_status : Option ContestStatus :=
      match row.status, row.start_time, row.end_time with
      | ContestStatus.pending, some st, _ =>
        if st ≤ now then some ContestStatus.running else none
      | ContestStatus.running, _, some et =>
        if et ≤ now then some ContestStatus.ended else none
      | _, _, _ => none
    match new_status with
    | some ns =>
      let row2 := { row with status := ns, updated_at := now }
      ({ last_update := now, status := "ok" },
        { s with db := { s.db with contest := some row2 } })
    | none => ({ last_update := row.updated_at, status := "ok" }, s)

/-- `POST /api/admin/contest/schedule`: upsert the singleton row with
status pending, start = now + countdown, end = start + duration. The
insert branch sets `is_visible` to FALSE, but the `ON CONFLICT DO UPDATE`
branch does not assign `is_visible`, so an existing row keeps its flag. -/
def admin_schedule_contest (secret : String) (token : Option String)
    (countdown_minutes duration_minutes : Int) (now : Int) (s : AppState) :
    Except ApiError Unit × AppState :=
  if check_admin_token secret token then
    let start_time := now + 60 * countdown_minutes
    let end_time := start_time + 60 * duration_minutes
    let row : ContestRow :=
      match s.db.contest with
      | none =>
        { status := ContestStatus.pending, start_time := some start_time,
          end_time := some end_time,
          total_duration_minutes := duration_minutes,
          is_visible := false, updated_at := now }
      | some old =>
        { old with
          status := ContestStatus.pending,
          start_time := some start_time, end_time := some end_time,
          total_duration_minutes := duration_minutes, updated_at := now }
    (Except.ok (), { s with db := { s.db with contest := some row } })
  else (Except.error ApiError.unauthorized, s)

/-- `POST /api/admin/contest/start`: upsert the singleton row with status
running, start = now, end = now + duration. As with schedule, the
`ON CONFLICT DO UPDATE` branch does not assign `is_visible`. -/
def admin_start_contest (secret : String) (token : Option String)
    (duration_minutes : Int) (now : Int) (s : AppState) :
    Except ApiError Unit × AppState :=
  if check_admin_token secret token then
    let end_time := now + 60 * duration_minutes
    let row : ContestRow :=
      match s.db.contest with
      | none =>
        { status := ContestStatus.running, start_time := some now,
          end_time := some end_time,
          total_duration_minutes := duration_minutes,
          is_visible := false, updated_at := now }
      | some old =>
        { old with
          status := ContestStatus.running,
          start_time := some now, end_time := some end_time,
          total_duration_minutes := duration_minutes, updated_at := now }
    (Except.ok (), { s with db := { s.db with contest := some row } })
  else (Except.error ApiError.unauthorized, s)

/-- `POST /api/admin/contest/add-time`: 400 when no row or no end time;
otherwise push `end_time` and `total_duration_minutes` forward by the
given minutes, whatever the current status. -/
def admin_add_time (secret : String) (token : Option String)
    (minutes : Int) (now : Int) (s : AppState) :
    Except ApiError Unit × AppState :=
  if check_admin_token secret token then
    match s.db.contest with
    | none => (Except.error ApiError.invalidState, s)
    | some row =>
      match row.end_time with
      | none => (Except.error ApiError.invalidState, s)
      | some et =>
        let row2 :=
          { row with
            end_time := some (et + 60 * minutes),
            total_duration_minutes := row.total_duration_minutes + minutes,
            updated_at := now }
        (Except.ok (), { s with db := { s.db with contest := some row2 } })
  else (Except.error ApiError.unauthorized, s)

/-- `POST /api/admin/contest/add-precountdown-time`: 400 when no row, when
the status is not pending, or when no start time is set; otherwise push
`start_time` forward by the given minutes, leaving the other columns
untouched. -/
def admin_add_precountdown_time (secret : String) (token : Option String)
    (minutes : Int) (now : Int) (s : AppState) :
    Except ApiError Unit × AppState :=
  if check_admin_token secret token then
    match s.db.contest with
    | none => (Except.error ApiError.invalidState, s)
    | some row =>
      if row.status = ContestStatus.pending then
        match row.start_time with
        | none => (Except.error ApiError.invalidState, s)
        | some st =>
          let row2 :=
            { row with
              start_time := some (st + 60 * minutes), updated_at := now }
          (Except.ok (), { s with db := { s.db with contest := some row2 } })
      else (Except.error ApiError.invalidState, s)
  else (Except.error ApiError.unauthorized, s)

/-- `POST /api/admin/contest/stop`: upsert status = ended, end = now. The
schema defaults used by the insert branch for the unlisted columns are not
part of the source; unset start time, zero duration and hidden are
assumed. -/
def admin_stop_contest (secret : String) (token : Option String)
    (now : Int) (s : AppState) : Except ApiError Unit × AppState :=
  if check_admin_token secret token then
    let row : ContestRow :=
      match s.db.contest with
      | none =>
        { status := ContestStatus.ended, start_time := none,
          end_time := some now, total_duration_minutes := 0,
          is_visible := false, updated_at := now }
      | some old =>
        { old with
          status := ContestStatus.ended, end_time := some now,
          updated_at := now }
    (Except.ok (), { s with db := { s.db with contest := some row } })
  else (Except.error ApiError.unauthorized, s)

/-- `POST /api/admin/contest/visibility`: upsert `is_visible` only. As for
stop, the insert branch fills the unlisted columns with assumed schema
defaults. -/
def admin_toggle_visibility (secret : String) (token : Option String)
    (flag : Bool) (now : Int) (s : AppState) :
    Except ApiError Unit × AppState :=
  if check_admin_token secret token then
    let row : ContestRow :=
      match s.db.contest with
      | none =>
        { status := ContestStatus.pending, start_time := none,
          end_time := none, total_duration_minutes := 0,
          is_visible := flag, updated_at := now }
      | some old => { old with is_visible := flag, updated_at := now }
    (Except.ok (), { s with db := { s.db with contest := some row } })
  else (Except.error ApiError.unauthorized, s)

/-- `POST /api/admin/contest/reset`: upsert the row back to pending with
all times cleared, zero duration and hidden. -/
def admin_reset_contest (secret : String) (token : Option String)
    (now : Int) (s : AppState) : Except ApiError Unit × AppState :=
  if check_admin_token secret token then
    let row : ContestRow :=
      { status := ContestStatus.pending, start_time := none,
        end_time := none, total_duration_minutes := 0,
        is_visible := false, updated_at := now }
    (Except.ok (), { s with db := { s.db with contest := some row } })
  else (Except.error ApiError.unauthorized, s)

/-- A contest row whose visibility flag is raised, used as concrete input. -/
def rowVisible : ContestRow :=
  { status := ContestStatus.ended, start_time := none, end_time := none,
    total_duration_minutes := 0, is_visible := true, updated_at := 0 }

/-- A state whose singleton contest row is `rowVisible`. -/
def stateVisible : AppState :=
  { db := { problems := [], samples := [], next_sample_id := 0,
            contest := some rowVisible }, cache := [] }

/-- A pending contest row whose start and end thresholds have both passed
by time 100. -/
def rowPendingBoth : ContestRow :=
  { status := ContestStatus.pending, start_time := some 10,
    end_time := some 20, total_duration_minutes := 1, is_visible := false,
    updated_at := 5 }

/-- A state whose singleton contest row is `rowPendingBoth`. -/
def statePendingBoth : AppState :=
  { db := { problems := [], samples := [], next_sample_id := 0,
            contest := some rowPendingBoth }, cache := [] }

/-- A running contest row whose end threshold has passed by time 100. -/
def rowRunningPast : ContestRow :=
  { status := ContestStatus.running, start_time := some 10,
    end_time := some 20, total_duration_minutes := 1, is_visible := false,
    updated_at := 15 }

/-- A state whose singleton contest row is `rowRunningPast`. -/
def stateRunningPast : AppState :=
  { db := { problems := [], samples := [], next_sample_id := 0,
            contest := some rowRunningPast }, cache := [] }

/-- A pending contest row with start 100 and end 200. -/
def rowPendingFar : ContestRow :=
  { status := ContestStatus.pending, start_time := some 100,
    end_time := some 200, total_duration_minutes := 10,
    is_visible := false, updated_at := 50 }

/-- A state whose singleton contest row is `rowPendingFar`. -/
def statePendingFar : AppState :=
  { db := { problems := [], samples := [], next_sample_id := 0,
            contest := some rowPendingFar }, cache := [] }

/-- A state with no contest row and nothing else. -/
def stateEmpty : AppState :=
  { db := { problems := [], samples := [], next_sample_id := 0,
            contest := none }, cache := [] }

/-- A concrete problem row with id P1. -/
def probP1 : Problem :=
  { id := "P1", title := "T", origin := none, time_limit := some 1,
    memory_limit := some 256, statement := "st", input := "in",
    output := "out", constraints := "c", note := none, vj_link := "L" }

/-- A state holding `probP1` with zero samples and an empty cache. -/
def stateP1 : AppState :=
  { db := { problems := [probP1], samples := [], next_sample_id := 0,
            contest := none }, cache := [] }

/-- A concrete request body creating problem P1. -/
def dataP1 : ProblemData :=
  { id := "P1", title := "T", origin := none, timeLimit := some 1,
    memoryLimit := some 256, statement := "st", input := "in",
    output := "out", constraints := "c", note := none, vjLink := "L",
    samples := [] }

/-- Claim C1 fails on the code: scheduling over a pre-existing row whose
visibility flag is true succeeds but leaves visibility true, because the
`ON CONFLICT DO UPDATE` branch of `admin_schedule_contest` never assigns
`is_visible`. -/
theorem schedule_existing_row_keeps_visibility :
    (admin_schedule_contest "admin123" (some "admin123") 5 120 1000
      stateVisible).1 = Except.ok () ∧
    ((admin_schedule_contest "admin123" (some "admin123") 5 120 1000
      stateVisible).2.db.contest.map ContestRow.is_visible) = some true ∧
    ((admin_schedule_contest "admin123" (some "admin123") 5 120 1000
      stateVisible).2.db.contest.map ContestRow.is_visible) ≠ some false :=
  ⟨rfl, rfl, by decide⟩

/-- Claim C1 (amended): successful schedule sets status pending,
start = now + countdown, end = start + duration, total duration, and
visibility false only when no row previously existed, a pre-existing row
keeping its visibility flag; likewise start sets status running,
start = now, end = now + duration, with the same visibility behaviour. -/
theorem schedule_start_set_times_spec (secret : String)
    (token : Option String) (h : token = some secret)
    (cd dur now : Int) (s : AppState) :
    ((admin_schedule_contest secret token cd dur now s).1 = Except.ok () ∧
     ((admin_schedule_contest secret token cd dur now s).2.db.contest.map
        ContestRow.status) = some ContestStatus.pending ∧
     ((admin_schedule_contest secret token cd dur now s).2.db.contest.map
        ContestRow.start_time) = some (some (now + 60 * cd)) ∧
     ((admin_schedule_contest secret token cd dur now s).2.db.contest.map
        ContestRow.end_time) = some (some (now + 60 * cd + 60 * dur)) ∧
     ((admin_schedule_contest secret token cd dur now s).2.db.contest.map
        ContestRow.total_duration_minutes) = some dur ∧
     ((admin_schedule_contest secret token cd dur now s).2.db.contest.map
        ContestRow.is_visible) = some (match s.db.contest with
          | none => false
          | some old => old.is_visible)) ∧
    ((admin_start_contest secret token dur now s).1 = Except.ok () ∧
     ((admin_start_contest secret token dur now s).2.db.contest.map
        ContestRow.status) = some ContestStatus.running ∧
     ((admin_start_contest secret token dur now s).2.db.contest.map
        ContestRow.start_time) = some (some now) ∧
     ((admin_start_contest secret token dur now s).2.db.contest.map
        ContestRow.end_time) = some (some (now + 60 * dur)) ∧
     ((admin_start_contest secret token dur now s).2.db.contest.map
        ContestRow.total_duration_minutes) = some dur ∧
     ((admin_start_contest secret token dur now s).2.db.contest.map
        ContestRow.is_visible) = some (match s.db.contest with
          | none => false
          | some old => old.is_visible)) := by
  subst h
  cases hc : s.db.contest <;>
    simp [admin_schedule_contest, admin_start_contest, check_admin_token, hc]

/-- Instance of `schedule_start_set_times_spec` at concrete inputs. -/
theorem schedule_start_set_times_spec_witness :
    (admin_schedule_contest "admin123" (some "admin123") 5 120 1000
      stateVisible).1 = Except.ok () ∧
    ((admin_start_contest "admin123" (some "admin123") 120 1000
      stateVisible).2.db.contest.map ContestRow.end_time)
        = some (some 8200) :=
  ⟨(schedule_start_set_times_spec "admin123" (some "admin123") rfl
      5 120 1000 stateVisible).1.1,
   (schedule_start_set_times_spec "admin123" (some "admin123") rfl
      5 120 1000 stateVisible).2.2.2.2.1⟩

/-- Claim C2: a poll applies and persists at most one lazy transition: the
stored row either is unchanged, or moves pending to running, or moves
running to ended, stamping `updated_at` with the poll time; a pending row
whose start time has passed becomes running on that poll, never ended,
even when the end time has passed too; and a running row whose end time
has passed becomes ended on that poll. -/
theorem get_last_update_single_transition (s : AppState) (now : Int)
    (row : ContestRow) (h : s.db.contest = some row) :
    ∃ row2, (get_last_update now s).2.db.contest = some row2 ∧
      (row2 = row ∨
        (row.status = ContestStatus.pending ∧
          row2.status = ContestStatus.running ∧ row2.updated_at = now) ∨
        (row.status = ContestStatus.running ∧
          row2.status = ContestStatus.ended ∧ row2.updated_at = now)) ∧
      (∀ st, row.status = ContestStatus.pending → row.start_time = some st →
        st ≤ now → row2.status = ContestStatus.running) ∧
      (∀ et, row.status = ContestStatus.running → row.end_time = some et →
        et ≤ now → row2.status = ContestStatus.ended) := by
  obtain ⟨status, st, et, dur, vis, upd⟩ := row
  cases status <;> cases st <;> cases et <;>
    simp only [get_last_update, h] <;>
    (try split) <;>
    simp_all <;>
    (rintro rfl; simp_all)

/-- Instance of `get_last_update_single_transition`: polling at time 100 a
pending row whose start (10) and end (20) have both passed yields status
running, and polling a running row whose end (20) has passed yields
status ended. -/
theorem get_last_update_single_transition_witness :
    ((get_last_update 100 statePendingBoth).2.db.contest.map
      ContestRow.status) = some ContestStatus.running ∧
    ((get_last_update 100 stateRunningPast).2.db.contest.map
      ContestRow.status) = some ContestStatus.ended := by
  constructor
  · obtain ⟨row2, h1, _, h3, _⟩ :=
      get_last_update_single_transition statePendingBoth 100
        rowPendingBoth rfl
    have hs := h3 10 rfl rfl (by decide)
    simp [h1, hs]
  · obtain ⟨row2, h1, _, _, h4⟩ :=
      get_last_update_single_transition stateRunningPast 100
        rowRunningPast rfl
    have hs := h4 20 rfl rfl (by decide)
    simp [h1, hs]

/-- Claim C3: the status read never writes (the state is returned intact)
and reports remaining time `max 0 (start - now)` for a pending row with a
start time, `max 0 (end - now)` for a running row with an end time, and 0
for an ended row or when no contest row exists. -/
theorem get_contest_status_readonly_remaining (s : AppState) (now : Int) :
    (get_contest_status now s).2 = s ∧
    (s.db.contest = none → (get_contest_status now s).1.remaining_time = 0) ∧
    (∀ row, s.db.contest = some row →
      (∀ st, row.status = ContestStatus.pending → row.start_time = some st →
        (get_contest_status now s).1.remaining_time = max 0 (st - now)) ∧
      (∀ et, row.status = ContestStatus.running → row.end_time = some et →
        (get_contest_status now s).1.remaining_time = max 0 (et - now)) ∧
      (row.status = ContestStatus.ended →
        (get_contest_status now s).1.remaining_time = 0)) := by
  cases hc : s.db.contest with
  | none => simp [get_contest_status, hc]
  | some row =>
    obtain ⟨status, st, et, dur, vis, upd⟩ := row
    cases status <;> cases st <;> cases et <;>
      simp_all [get_contest_status, hc]

/-- Instance of `get_contest_status_readonly_remaining`: at time 40 a
pending row starting at 100 reports 60 seconds and the state is intact. -/
theorem get_contest_status_readonly_remaining_witness :
    (get_contest_status 40 statePendingFar).2 = statePendingFar ∧
    (get_contest_status 40 statePendingFar).1.remaining_time
      = max 0 (100 - 40) := by
  refine ⟨(get_contest_status_readonly_remaining statePendingFar 40).1, ?_⟩
  exact ((get_contest_status_readonly_remaining statePendingFar 40).2.2
    rowPendingFar rfl).1 100 rfl rfl

/-- Claim C4: add-time fails with InvalidState and leaves the whole state
unchanged exactly when there is no contest row or its end time is unset;
otherwise, whatever the status, it pushes the end time forward by the
given minutes and the total duration by the same amount. -/
theorem admin_add_time_spec (secret : String) (token : Option String)
    (h : token = some secret) (m now : Int) (s : AppState) :
    ((s.db.contest = none ∨
        ∃ row, s.db.contest = some row ∧ row.end_time = none) →
      admin_add_time secret token m now s
        = (Except.error ApiError.invalidState, s)) ∧
    (∀ row et, s.db.contest = some row → row.end_time = some et →
      (admin_add_time secret token m now s).1 = Except.ok () ∧
      (admin_add_time secret token m now s).2.db.contest = some
        { row with
          end_time := some (et + 60 * m),
          total_duration_minutes := row.total_duration_minutes + m,
          updated_at := now } ∧
      (admin_add_time secret token m now s).2.cache = s.cache ∧
      (admin_add_time secret token m now s).2.db.problems = s.db.problems ∧
      (admin_add_time secret token m now s).2.db.samples = s.db.samples) := by
  subst h
  constructor
  · rintro (hc | ⟨row, hc, hend⟩) <;>
      simp_all [admin_add_time, check_admin_token]
  · rintro row et hc hend
    simp_all [admin_add_time, check_admin_token]

/-- Instance of `admin_add_time_spec`: no contest row fails with
InvalidState and an unchanged state; a pending row with end time 200
accepts 15 minutes. -/
theorem admin_add_time_spec_witness :
    admin_add_time "admin123" (some "admin123") 15 300 stateEmpty
      = (Except.error ApiError.invalidState, stateEmpty) ∧
    (admin_add_time "admin123" (some "admin123") 15 300 statePendingFar).1
      = Except.ok () := by
  constructor
  · exact (admin_add_time_spec "admin123" (some "admin123") rfl 15 300
      stateEmpty).1 (Or.inl rfl)
  · exact ((admin_add_time_spec "admin123" (some "admin123") rfl 15 300
      statePendingFar).2 rowPendingFar 200 rfl rfl).1

/-- Claim C5: add-precountdown-time succeeds only on a pending row with a
start time, pushing the start forward by the given minutes and leaving
end time, status, total duration and visibility as they were; in every
other state it fails with InvalidState and leaves the state unchanged. -/
theorem admin_add_precountdown_time_spec (secret : String)
    (token : Option String) (h : token = some secret) (m now : Int)
    (s : AppState) :
    (∀ row st, s.db.contest = some row →
      row.status = ContestStatus.pending → row.start_time = some st →
      (admin_add_precountdown_time secret token m now s).1 = Except.ok () ∧
      ∃ row2,
        (admin_add_precountdown_time secret token m now s).2.db.contest
          = some row2 ∧
        row2.start_time = some (st + 60 * m) ∧
        row2.end_time = row.end_time ∧
        row2.status = row.status ∧
        row2.total_duration_minutes = row.total_duration_minutes ∧
        row2.is_visible = row.is_visible) ∧
    ((s.db.contest = none ∨ ∃ row, s.db.contest = some row ∧
        (row.status ≠ ContestStatus.pending ∨ row.start_time = none)) →
      admin_add_precountdown_time secret token m now s
        = (Except.error ApiError.invalidState, s)) := by
  subst h
  constructor
  · rintro row st hc hp hst
    simp_all [admin_add_precountdown_time, check_admin_token]
  · rintro (hc | ⟨row, hc, hbad | hbad⟩) <;>
      simp_all [admin_add_precountdown_time, check_admin_token]

/-- Instance of `admin_add_precountdown_time_spec`: a pending row with
start 100 accepts 5 minutes; an ended row fails with InvalidState and an
unchanged state. -/
theorem admin_add_precountdown_time_spec_witness :
    (admin_add_precountdown_time "admin123" (some "admin123") 5 300
      statePendingFar).1 = Except.ok () ∧
    admin_add_precountdown_time "admin123" (some "admin123") 5 300
      stateVisible = (Except.error ApiError.invalidState, stateVisible) := by
  constructor
  · exact ((admin_add_precountdown_time_spec "admin123" (some "admin123")
      rfl 5 300 statePendingFar).1 rowPendingFar 100 rfl rfl rfl).1
  · exact (admin_add_precountdown_time_spec "admin123" (some "admin123")
      rfl 5 300 stateVisible).2
      (Or.inr ⟨rowVisible, rfl, Or.inl (by decide)⟩)

/-- Claim C6: with a token that is not string-equal to the configured
secret, every admin operation returns Unauthorized and leaves the whole
state, datastore and cache alike, unchanged. -/
theorem admin_ops_unauthorized_noop (secret : String) (token : Option String)
    (h : token ≠ some secret) (s : AppState) (now cd dur m : Int)
    (flag : Bool) (pid : String) (d : ProblemData) :
    admin_login secret token s = (Except.error ApiError.unauthorized, s) ∧
    admin_add_problem secret token d now s
      = (Except.error ApiError.unauthorized, s) ∧
    admin_update_problem secret token pid d now s
      = (Except.error ApiError.unauthorized, s) ∧
    admin_delete_problem secret token pid s
      = (Except.error ApiError.unauthorized, s) ∧
    admin_schedule_contest secret token cd dur now s
      = (Except.error ApiError.unauthorized, s) ∧
    admin_start_contest secret token dur now s
      = (Except.error ApiError.unauthorized, s) ∧
    admin_add_time secret token m now s
      = (Except.error ApiError.unauthorized, s) ∧
    admin_add_precountdown_time secret token m now s
      = (Except.error ApiError.unauthorized, s) ∧
    admin_stop_contest secret token now s
      = (Except.error ApiError.unauthorized, s) ∧
    admin_toggle_visibility secret token flag now s
      = (Except.error ApiError.unauthorized, s) ∧
    admin_reset_contest secret token now s
      = (Except.error ApiError.unauthorized, s) := by
  have hch : check_admin_token secret token = false := by
    simp [check_admin_token, h]
  simp [admin_login, admin_add_problem, admin_update_problem,
    admin_delete_problem, admin_schedule_contest, admin_start_contest,
    admin_add_time, admin_add_precountdown_time, admin_stop_contest,
    admin_toggle_visibility, admin_reset_contest, hch]

/-- Instance of `admin_ops_unauthorized_noop` with a missing token. -/
theorem admin_ops_unauthorized_noop_witness :
    admin_login "admin123" none stateEmpty
      = (Except.error ApiError.unauthorized, stateEmpty) ∧
    admin_schedule_contest "admin123" (some "wrong") 5 120 0 stateEmpty
      = (Except.error ApiError.unauthorized, stateEmpty) := by
  constructor
  · exact (admin_ops_unauthorized_noop "admin123" none (by decide)
      stateEmpty 0 0 0 0 false "P1" dataP1).1
  · exact (admin_ops_unauthorized_noop "admin123" (some "wrong") (by decide)
      stateEmpty 0 5 120 0 false "P1" dataP1).2.2.2.2.1

/-- Claim C7: a get within the 3600 second TTL of a put returns the stored
value; a get misses when the key is absent or the entry is at least 3600
seconds old; and a successful problem mutation through any of the three
admin problem endpoints empties the whole cache, after which every key
misses. -/
theorem cache_ttl_and_clear_spec (secret : String) (d : ProblemData)
    (pid : String) (s : AppState) (now : Int) :
    (∀ (c : Cache) k v t, now - t < 3600 →
      cacheGet (cachePut c k v t) k now = some v) ∧
    (∀ (c : Cache) k, c.lookup k = none → cacheGet c k now = none) ∧
    (∀ (c : Cache) k v t, c.lookup k = some (v, t) → 3600 ≤ now - t →
      cacheGet c k now = none) ∧
    (admin_add_problem secret (some secret) d now s).2.cache = [] ∧
    (admin_update_problem secret (some secret) pid d now s).2.cache = [] ∧
    (admin_delete_problem secret (some secret) pid s).2.cache = [] ∧
    (∀ k, cacheGet [] k now = none) := by
  refine ⟨?_, ?_, ?_, ?_, ?_, ?_, ?_⟩
  · intro c k v t ht
    simp [cacheGet, cachePut, List.lookup, ht]
  · intro c k hk
    simp [cacheGet, hk]
  · intro c k v t hk ht
    simp [cacheGet, hk]
    omega
  · simp [admin_add_problem, check_admin_token]
  · simp [admin_update_problem, check_admin_token]
  · simp [admin_delete_problem, check_admin_token]
  · intro k
    simp [cacheGet, List.lookup]

/-- Instance of `cache_ttl_and_clear_spec`: a fresh entry is returned 100
seconds after its put, and an authorized problem insert empties the
cache. -/
theorem cache_ttl_and_clear_spec_witness :
    cacheGet (cachePut [] "all_problems" (CacheValue.allProblems []) 100)
      "all_problems" 200 = some (CacheValue.allProblems []) ∧
    (admin_add_problem "admin123" (some "admin123") dataP1 0
      stateEmpty).2.cache = [] := by
  constructor
  · exact (cache_ttl_and_clear_spec "admin123" dataP1 "P1" stateEmpty
      200).1 [] "all_problems" (CacheValue.allProblems []) 100 (by decide)
  · exact (cache_ttl_and_clear_spec "admin123" dataP1 "P1" stateEmpty
      0).2.2.2.1

/-- Claim C8: on a cache miss, a lookup of an existing problem with zero
sample rows returns its detail with the empty sample array, and a lookup
of an id with no matching problem row reports NotFound. -/
theorem get_problem_empty_samples_notFound (s : AppState) (pid : String)
    (now : Int)
    (hmiss : cacheGet s.cache ("problem_" ++ pid) now = none) :
    (∀ p, s.db.problems.find? (fun q => q.id == pid) = some p →
      s.db.samples.filter (fun t => t.problem_id == pid) = [] →
      (get_problem pid now s).1
        = Except.ok (problemDetailOf p s.db.samples) ∧
      (problemDetailOf p s.db.samples).samples = []) ∧
    (s.db.problems.find? (fun q => q.id == pid) = none →
      (get_problem pid now s).1 = Except.error ApiError.notFound) := by
  constructor
  · intro p hfind hsamp
    have hid : p.id = pid := by
      have := List.find?_some hfind
      simpa using this
    constructor
    · simp [get_problem, hmiss, hfind]
    · simp [problemDetailOf, problemSamples, hid, hsamp, sortByKey]
  · intro hfind
    simp [get_problem, hmiss, hfind]

/-- Instance of `get_problem_empty_samples_notFound` on a store holding
problem P1 with zero samples. -/
theorem get_problem_empty_samples_notFound_witness :
    (get_problem "P1" 0 stateP1).1
      = Except.ok (problemDetailOf probP1 []) ∧
    (problemDetailOf probP1 []).samples = [] ∧
    (get_problem "P2" 0 stateP1).1 = Except.error ApiError.notFound := by
  refine ⟨?_, ?_, ?_⟩
  · exact ((get_problem_empty_samples_notFound stateP1 "P1" 0 rfl).1
      probP1 (by decide) rfl).1
  · exact ((get_problem_empty_samples_notFound stateP1 "P1" 0 rfl).1
      probP1 (by decide) rfl).2
  · exact (get_problem_empty_samples_notFound stateP1 "P2" 0 rfl).2
      (by decide)

/-- The problem lookup never touches the database part of the state. -/
theorem get_problem_db_unchanged (pid : String) (now : Int) (s : AppState) :
    (get_problem pid now s).2.db = s.db := by
  simp only [get_problem]
  rcases hg : cacheGet s.cache ("problem_" ++ pid) now with _ | v
  · rcases hf : s.db.problems.find? (fun p => p.id == pid) with _ | p <;>
      simp [hf]
  · cases v with
    | allProblems ps =>
      rcases hf : s.db.problems.find? (fun p => p.id == pid) with _ | p <;>
        simp [hf]
    | problemDetail dd => simp

/-- Claim C9: a NotFound lookup leaves the state, cache included, intact;
the cache can only change when the lookup succeeded; and after a NotFound
lookup followed by an authorized creation of that problem, the next lookup
of the same id succeeds rather than being served a cached NotFound. -/
theorem get_problem_no_negative_caching (s : AppState) (pid : String)
    (now later : Int) (secret : String) (d : ProblemData) :
    ((get_problem pid now s).1 = Except.error ApiError.notFound →
      (get_problem pid now s).2 = s) ∧
    ((get_problem pid now s).2.cache ≠ s.cache →
      ∃ dd, (get_problem pid now s).1 = Except.ok dd) ∧
    (s.db.problems.find? (fun q => q.id == pid) = none → d.id = pid →
      ∃ dd, (get_problem pid later
        ((admin_add_problem secret (some secret) d now
          ((get_problem pid now s).2)).2)).1 = Except.ok dd) := by
  refine ⟨?_, ?_, ?_⟩
  · intro hr
    revert hr
    simp only [get_problem]
    rcases hg : cacheGet s.cache ("problem_" ++ pid) now with _ | v
    · rcases hf : s.db.problems.find? (fun p => p.id == pid) with _ | p <;>
        simp [hf]
    · cases v with
      | allProblems ps =>
        rcases hf : s.db.problems.find? (fun p => p.id == pid) with _ | p <;>
          simp [hf]
      | problemDetail dd => simp
  · intro hn
    revert hn
    simp only [get_problem]
    rcases hg : cacheGet s.cache ("problem_" ++ pid) now with _ | v
    · rcases hf : s.db.problems.find? (fun p => p.id == pid) with _ | p <;>
        simp [hf]
    · cases v with
      | allProblems ps =>
        rcases hf : s.db.problems.find? (fun p => p.id == pid) with _ | p <;>
          simp [hf]
      | problemDetail dd => simp
  · intro hfind hd
    have hdb : (get_problem pid now s).2.db = s.db :=
      get_problem_db_unchanged pid now s
    have hany : s.db.problems.any (fun p => p.id == d.id) = false := by
      rw [List.any_eq_false]
      intro p hp
      have := List.find?_eq_none.mp hfind p hp
      simpa [hd] using this
    have hstep :
        (admin_add_problem secret (some secret) d now
          ((get_problem pid now s).2)).2.cache = [] ∧
        (admin_add_problem secret (some secret) d now
          ((get_problem pid now s).2)).2.db.problems
            = s.db.problems ++ [problemOfData d] := by
      constructor <;>
        simp [admin_add_problem, check_admin_token, upsertProblem, hdb, hany]
    have hfa : (fun p => p.id == pid) (problemOfData d) = true := by
      simp [problemOfData, hd]
    set S := (admin_add_problem secret (some secret) d now
      ((get_problem pid now s).2)).2 with hS
    obtain ⟨hc1, hp1⟩ := hstep
    have hfind2 : (S.db.problems.find? (fun p => p.id == pid))
        = some (problemOfData d) := by
      rw [hp1, List.find?_append, hfind]
      simp [List.find?, hfa]
    have hcg : cacheGet S.cache ("problem_" ++ pid) later = none := by
      rw [hc1]
      rfl
    refine ⟨problemDetailOf (problemOfData d) S.db.samples, ?_⟩
    simp [get_problem, hcg, hfind2]

/-- Instance of `get_problem_no_negative_caching`: looking up P1 in an
empty store, then creating P1, then looking it up again succeeds. -/
theorem get_problem_no_negative_caching_witness :
    ∃ dd, (get_problem "P1" 50
      ((admin_add_problem "admin123" (some "admin123") dataP1 10
        ((get_problem "P1" 0 stateEmpty).2)).2)).1 = Except.ok dd :=
  (get_problem_no_negative_caching stateEmpty "P1" 0 50 "admin123"
    dataP1).2.2 rfl rfl

/-- Claim C10: the list and detail reads return the same payload on any
two states agreeing on problems, samples, sample counter and cache,
whatever their contest rows, visibility flags included. -/
theorem problem_reads_ignore_contest (s1 s2 : AppState)
    (hp : s1.db.problems = s2.db.problems)
    (hs : s1.db.samples = s2.db.samples)
    (hn : s1.db.next_sample_id = s2.db.next_sample_id)
    (hc : s1.cache = s2.cache) (pid : String) (now : Int) :
    (get_all_problems now s1).1 = (get_all_problems now s2).1 ∧
    (get_problem pid now s1).1 = (get_problem pid now s2).1 := by
  obtain ⟨⟨p1, sa1, n1, c1⟩, ca1⟩ := s1
  obtain ⟨⟨p2, sa2, n2, c2⟩, ca2⟩ := s2
  simp only at hp hs hn hc
  subst hp hs hn hc
  constructor
  · simp only [get_all_problems]
    rcases hg : cacheGet ca1 "all_problems" now with _ | v
    · simp
    · cases v with
      | allProblems ps => simp
      | problemDetail dd => simp
  · simp only [get_problem]
    rcases hg : cacheGet ca1 ("problem_" ++ pid) now with _ | v
    · rcases hf : p1.find? (fun p => p.id == pid) with _ | p <;> simp [hf]
    · cases v with
      | allProblems ps =>
        rcases hf : p1.find? (fun p => p.id == pid) with _ | p <;> simp [hf]
      | problemDetail dd => simp

/-- Instance of `problem_reads_ignore_contest`: an empty store with no
contest row and the same store with a pending contest row agree on both
reads. -/
theorem problem_reads_ignore_contest_witness :
    (get_all_problems 0 stateEmpty).1
      = (get_all_problems 0 statePendingFar).1 ∧
    (get_problem "P1" 0 stateEmpty).1
      = (get_problem "P1" 0 statePendingFar).1 :=
  problem_reads_ignore_contest stateEmpty statePendingFar rfl rfl rfl rfl
    "P1" 0
